import Mathlib

/-!
Verification of the brumas2 event-management backend (FastAPI + SQLAlchemy)
against its natural-language specification.

This file is a shallow embedding of the parts of the code the claims touch:

* rows of the ORM tables (`Usuario`, the seven dimension tables, `Evento`,
  `Despesa`, `Degustacao`) become Lean structures; the whole store is a `Db`
  of row lists;
* dates are encoded as naturals of shape YYYYMMDD (so chronological order is
  the numeric order and `to_char(date, "YYYY-MM")` is division by 100);
  money columns (`Numeric(10,2)`) are rationals; nullable columns are
  `Option`;
* a Python `Optional[int]` / `Optional[str]` filter argument is an `Option`;
  SQLAlchemy query chains become list `filter`/`map`/`take`/`drop`; the
  truthiness tests of the source (`if id_cliente:`) are modelled exactly,
  including that the integer `0` and the empty string are falsy;
* a request handler that can raise `HTTPException` becomes a function into
  `Except HttpError`, carrying the same status code and detail string; a
  handler that commits returns the new `Db`, so "no mutation on error" is
  "the error branch carries no new `Db`";
* a pydantic update schema with `model_dump(exclude_unset=True)` becomes a
  structure of `Option` fields (`some v` = the field was present in the
  payload), and applying the dump is a field-by-field overwrite.
-/

/-- ORM row of table `usuarios` (`app/models/user.py`).  The password hash
and timestamps are irrelevant to every claim and are omitted; `perfil` is the
string value of the `UserProfile` enum ("administrativo" / "operacional"). -/
structure Usuario where
  id : Int
  username : String
  email : String
  nome_completo : Option String
  perfil : String
  is_active : Bool
deriving DecidableEq

/-- ORM row of `dim_clientes`. -/
structure Cliente where
  id : Int
  nome : String
  contato_principal : Option String
  telefone : Option String
  email : Option String
  id_usuario_criador : Int
deriving DecidableEq

/-- ORM row of `dim_locais_evento`. -/
structure LocalEvento where
  id : Int
  descricao : String
  id_usuario_criador : Int
deriving DecidableEq

/-- ORM row of `dim_tipos_evento`. -/
structure TipoEvento where
  id : Int
  descricao : String
  id_usuario_criador : Int
deriving DecidableEq

/-- ORM row of `dim_cidades`. -/
structure Cidade where
  id : Int
  nome : String
  estado : String
  id_usuario_criador : Int
deriving DecidableEq

/-- ORM row of `dim_assessorias`. -/
structure Assessoria where
  id : Int
  descricao : String
  id_usuario_criador : Int
deriving DecidableEq

/-- ORM row of `dim_buffets`. -/
structure Buffet where
  id : Int
  descricao : String
  id_usuario_criador : Int
deriving DecidableEq

/-- ORM row of `dim_insumos`. -/
structure Insumo where
  id : Int
  descricao : String
  id_usuario_criador : Int
deriving DecidableEq

/-- ORM row of `eventos` (`app/models/event.py`).  `data_evento`,
`created_at`, `updated_at` are YYYYMMDD-style naturals; `data_venda` keeps
only its date part. -/
structure Evento where
  id : Int
  data_evento : Nat
  horas_festa : Option ℚ
  qtde_convidados_prevista : Option Int
  status_evento : String
  id_cliente : Int
  id_local_evento : Int
  id_tipo_evento : Option Int
  id_cidade : Option Int
  id_assessoria : Option Int
  id_buffet : Option Int
  id_usuario_criador : Int
  vlr_unitario_por_convidado : Option ℚ
  vlr_total_contrato : Option ℚ
  data_venda : Option Nat
  observacoes_venda : Option String
  created_at : Nat
  updated_at : Nat
deriving DecidableEq

/-- ORM row of `despesas`. -/
structure Despesa where
  id : Int
  quantidade : ℚ
  vlr_unitario_pago : ℚ
  vlr_total_pago : ℚ
  data_despesa : Nat
  id_evento : Int
  id_insumo : Int
  id_usuario_criador : Int
  created_at : Nat
  updated_at : Nat
deriving DecidableEq

/-- ORM row of `degustacoes`. -/
structure Degustacao where
  id : Int
  data_degustacao : Nat
  status : String
  vlr_degustacao : Option ℚ
  feedback_cliente : Option String
  id_evento : Int
  id_usuario_criador : Int
  created_at : Nat
  updated_at : Nat
deriving DecidableEq

/-- The relational store: one list of rows per table. -/
structure Db where
  usuarios : List Usuario
  clientes : List Cliente
  locais_evento : List LocalEvento
  tipos_evento : List TipoEvento
  cidades : List Cidade
  assessorias : List Assessoria
  buffets : List Buffet
  insumos : List Insumo
  eventos : List Evento
  despesas : List Despesa
  degustacoes : List Degustacao
deriving DecidableEq

/-- An `HTTPException`: status code and detail message. -/
structure HttpError where
  status_code : Nat
  detail : String
deriving DecidableEq

/-- Python truthiness of an `Optional[int]` value (`None` and `0` are falsy). -/
def truthyInt : Option Int → Bool
  | none => false
  | some v => v != 0

/-- Python truthiness of an `Optional[str]` value (`None` and `""` are falsy). -/
def truthyStr : Option String → Bool
  | none => false
  | some s => s != ""

/-- `Except.isOk` for our result type, so counterexamples can state that a
request did NOT fail. -/
def isOkE {ε α : Type} : Except ε α → Bool
  | .ok _ => true
  | .error _ => false

/-! ## Event listing and counting (`crud_event.get_multi_eventos`, `count_eventos`) -/

/-- The optional query filters of `get_multi_eventos` / `count_eventos`. -/
structure EventoFilters where
  id_cliente : Option Int := none
  status_evento : Option String := none
  data_inicio : Option Nat := none
  data_fim : Option Nat := none
  id_cidade : Option Int := none
  id_buffet : Option Int := none
deriving DecidableEq

/-- One event row passes the six optional filters.  Each filter is applied
only when its argument is truthy, exactly as the `if id_cliente:` chain of
the source; equality against a nullable column (`id_cidade`, `id_buffet`)
is SQL equality, false on NULL. -/
def eventoMatchesFilters (f : EventoFilters) (e : Evento) : Bool :=
  (!truthyInt f.id_cliente || e.id_cliente == f.id_cliente.getD 0) &&
  (!truthyStr f.status_evento || e.status_evento == f.status_evento.getD "") &&
  (!f.data_inicio.isSome || decide (f.data_inicio.getD 0 ≤ e.data_evento)) &&
  (!f.data_fim.isSome || decide (e.data_evento ≤ f.data_fim.getD 0)) &&
  (!truthyInt f.id_cidade || e.id_cidade == some (f.id_cidade.getD 0)) &&
  (!truthyInt f.id_buffet || e.id_buffet == some (f.id_buffet.getD 0))

/-- The ownership base filter shared by every event query: non-admin users
see only rows they created (`if current_user.perfil != "administrativo"`). -/
def ownershipScope (current_user : Usuario) (rows : List Evento) : List Evento :=
  if current_user.perfil != "administrativo" then
    rows.filter (fun e => e.id_usuario_criador == current_user.id)
  else rows

/-- Insert into a list sorted by the boolean relation `le`. -/
def insertSorted {α : Type} (le : α → α → Bool) (a : α) : List α → List α
  | [] => [a]
  | b :: t => if le a b then a :: b :: t else b :: insertSorted le a t

/-- Insertion sort by the boolean relation `le`; models `ORDER BY`. -/
def sortByLe {α : Type} (le : α → α → Bool) : List α → List α
  | [] => []
  | a :: t => insertSorted le a (sortByLe le t)

/-- Comparison between two nullable column values: NULLs sort first
(a fixed modelling choice; no claim depends on where NULLs sort). -/
def optLe {α : Type} (le : α → α → Bool) : Option α → Option α → Bool
  | none, _ => true
  | some _, none => false
  | some a, some b => le a b

/-- The `ORDER BY` key for one of the six allow-listed column names;
any other name falls back to `data_evento` (callers resolve first). -/
def eventoKeyLe (key : String) (a b : Evento) : Bool :=
  if key == "created_at" then decide (a.created_at ≤ b.created_at)
  else if key == "updated_at" then decide (a.updated_at ≤ b.updated_at)
  else if key == "vlr_total_contrato" then
    optLe (fun x y => decide (x ≤ y)) a.vlr_total_contrato b.vlr_total_contrato
  else if key == "qtde_convidados_prevista" then
    optLe (fun x y => decide (x ≤ y)) a.qtde_convidados_prevista b.qtde_convidados_prevista
  else if key == "status_evento" then decide (a.status_evento ≤ b.status_evento)
  else decide (a.data_evento ≤ b.data_evento)

/-- The allow-list `valid_order_fields` of `get_multi_eventos`. -/
def valid_order_fields : List String :=
  ["data_evento", "created_at", "updated_at", "vlr_total_contrato",
   "qtde_convidados_prevista", "status_evento"]

/-- `if order_by not in valid_order_fields: order_by = "data_evento"`. -/
def resolveOrderBy (order_by : String) : String :=
  if order_by ∈ valid_order_fields then order_by else "data_evento"

/-- Apply the resolved `ORDER BY`: ascending exactly when
`order_direction.lower() == "asc"`, otherwise descending. -/
def sortEventos (order_by order_direction : String) (l : List Evento) : List Evento :=
  let key := resolveOrderBy order_by
  if order_direction.toLower == "asc" then sortByLe (eventoKeyLe key) l
  else sortByLe (fun a b => eventoKeyLe key b a) l

/-- `crud_event.get_multi_eventos`: ownership scope, the six optional
filters, allow-listed ordering, then `offset(skip).limit(limit)`. -/
def get_multi_eventos (db : Db) (current_user : Usuario) (skip limit : Nat)
    (f : EventoFilters) (order_by order_direction : String) : List Evento :=
  let q := ownershipScope current_user db.eventos
  let q := q.filter (eventoMatchesFilters f)
  ((sortEventos order_by order_direction q).drop skip).take limit

/-- `crud_event.count_eventos`: same ownership scope and filters, `count()`. -/
def count_eventos (db : Db) (current_user : Usuario) (f : EventoFilters) : Nat :=
  ((ownershipScope current_user db.eventos).filter (eventoMatchesFilters f)).length

/-! ## Pagination envelope (`read_eventos`, `schemas/common.PaginatedResponse`) -/

/-- The page envelope of `PaginatedResponse` (`app/schemas/common.py`). -/
structure PaginatedResponse where
  items : List Evento
  total : Nat
  page : Nat
  page_size : Nat
  total_pages : Nat
  has_next : Bool
  has_previous : Bool
deriving DecidableEq

/-- The `GET /eventos/` handler `read_eventos` (`app/api/routers/eventos.py`):
`skip = (page - 1) * page_size`, `total_pages = (total + page_size - 1) //
page_size if total > 0 else 0`, `has_next = page < total_pages`,
`has_previous = page > 1`. -/
def read_eventos (db : Db) (current_user : Usuario) (page page_size : Nat)
    (f : EventoFilters) (order_by order_direction : String) : PaginatedResponse :=
  let skip := (page - 1) * page_size
  let eventos := get_multi_eventos db current_user skip page_size f order_by order_direction
  let total := count_eventos db current_user f
  let total_pages := if total > 0 then (total + page_size - 1) / page_size else 0
  { items := eventos
    total := total
    page := page
    page_size := page_size
    total_pages := total_pages
    has_next := decide (page < total_pages)
    has_previous := decide (page > 1) }
/-! ## Event detail, permission check and expenses
(`crud_event.get_evento`, `routers/eventos.validate_event_permission`,
`update_despesa_for_evento`, `delete_despesa_for_evento`) -/

/-- `crud_event.get_evento`: the event with the given id, if any. -/
def get_evento (db : Db) (evento_id : Int) : Option Evento :=
  db.eventos.find? (fun e => e.id == evento_id)

/-- The `despesas` relationship of an event: its child expense rows. -/
def eventoDespesas (db : Db) (e : Evento) : List Despesa :=
  db.despesas.filter (fun d => d.id_evento == e.id)

/-- `routers/eventos.validate_event_permission`: 404 when the event is
absent, 403 when the caller is neither administrative nor the event's
creator, otherwise the event. -/
def validate_event_permission (evento : Option Evento) (current_user : Usuario)
    (action : String) : Except HttpError Evento :=
  match evento with
  | none => .error { status_code := 404, detail := "Evento não encontrado" }
  | some e =>
    if current_user.perfil != "administrativo" &&
        e.id_usuario_criador != current_user.id then
      .error { status_code := 403,
               detail := "Você não tem permissão para " ++ action ++ " este evento" }
    else .ok e

/-- The payload of `schemas/event.DespesaUpdate` after
`model_dump(exclude_unset=True)`: `some v` means the field was present. -/
structure DespesaUpdate where
  id_insumo : Option Int := none
  quantidade : Option ℚ := none
  vlr_unitario_pago : Option ℚ := none
  vlr_total_pago : Option ℚ := none
  data_despesa : Option Nat := none
deriving DecidableEq

/-- `setattr(despesa_obj, field, value)` for every field of the dump. -/
def applyDespesaUpdate (d : Despesa) (upd : DespesaUpdate) : Despesa :=
  { d with
    id_insumo := upd.id_insumo.getD d.id_insumo
    quantidade := upd.quantidade.getD d.quantidade
    vlr_unitario_pago := upd.vlr_unitario_pago.getD d.vlr_unitario_pago
    vlr_total_pago := upd.vlr_total_pago.getD d.vlr_total_pago
    data_despesa := upd.data_despesa.getD d.data_despesa }

/-- An `Insumo` row with this id exists. -/
def insumoExists (db : Db) (i : Int) : Bool := db.insumos.any (fun x => x.id == i)

/-- `crud_event.update_despesa`: validate the new `id_insumo` when it is
present and truthy, then apply the dump and commit the changed row. -/
def update_despesa (db : Db) (despesa_obj : Despesa) (despesa_in : DespesaUpdate) :
    Except HttpError (Db × Despesa) :=
  if truthyInt despesa_in.id_insumo && !insumoExists db (despesa_in.id_insumo.getD 0) then
    .error { status_code := 404,
             detail := "Insumo com id " ++ toString (despesa_in.id_insumo.getD 0) ++
               " não encontrado." }
  else
    let d := applyDespesaUpdate despesa_obj despesa_in
    .ok ({ db with despesas := db.despesas.map (fun x => if x.id == despesa_obj.id then d else x) }, d)

/-- `crud_event.delete_despesa`: remove the row. -/
def delete_despesa (db : Db) (despesa_obj : Despesa) : Db :=
  { db with despesas := db.despesas.filter (fun x => !(x.id == despesa_obj.id)) }

/-- The `PATCH /eventos/{id}/despesas/{id}` handler
`update_despesa_for_evento`: event-level owner-or-admin check, then the
expense must be a child of that event, then the expense-level owner-or-admin
check, and only then the update. -/
def update_despesa_for_evento (db : Db) (current_user : Usuario)
    (evento_id despesa_id : Int) (despesa_in : DespesaUpdate) :
    Except HttpError (Db × Despesa) :=
  match validate_event_permission (get_evento db evento_id) current_user "modificar" with
  | .error err => .error err
  | .ok evento =>
    match (eventoDespesas db evento).find? (fun d => d.id == despesa_id) with
    | none =>
      .error { status_code := 404,
               detail := "Despesa com id " ++ toString despesa_id ++
                 " não encontrada neste evento." }
    | some despesa_obj =>
      if current_user.perfil != "administrativo" &&
          despesa_obj.id_usuario_criador != current_user.id then
        .error { status_code := 403,
                 detail := "Você não tem permissão para modificar esta despesa. Apenas o criador ou administradores podem editá-la." }
      else update_despesa db despesa_obj despesa_in

/-- The `DELETE /eventos/{id}/despesas/{id}` handler
`delete_despesa_for_evento`: the same two-layer authorization, then the
delete.  (The source passes action "modificar" to the event-level check
here too.) -/
def delete_despesa_for_evento (db : Db) (current_user : Usuario)
    (evento_id despesa_id : Int) : Except HttpError Db :=
  match validate_event_permission (get_evento db evento_id) current_user "modificar" with
  | .error err => .error err
  | .ok evento =>
    match (eventoDespesas db evento).find? (fun d => d.id == despesa_id) with
    | none =>
      .error { status_code := 404,
               detail := "Despesa com id " ++ toString despesa_id ++
                 " não encontrada neste evento." }
    | some despesa_obj =>
      if current_user.perfil != "administrativo" &&
          despesa_obj.id_usuario_criador != current_user.id then
        .error { status_code := 403,
                 detail := "Você não tem permissão para deletar esta despesa. Apenas o criador ou administradores podem excluí-la." }
      else .ok (delete_despesa db despesa_obj)

/-- The store after an expense update request: errors leave it unchanged. -/
def dbAfterUpdateDespesa (db : Db) (current_user : Usuario)
    (evento_id despesa_id : Int) (despesa_in : DespesaUpdate) : Db :=
  match update_despesa_for_evento db current_user evento_id despesa_id despesa_in with
  | .error _ => db
  | .ok p => p.1

/-- The store after an expense delete request: errors leave it unchanged. -/
def dbAfterDeleteDespesa (db : Db) (current_user : Usuario)
    (evento_id despesa_id : Int) : Db :=
  match delete_despesa_for_evento db current_user evento_id despesa_id with
  | .error _ => db
  | .ok d => d

/-! ## Event creation (`crud_event.validate_evento_relationships`, `create_evento`) -/

/-- The payload of `schemas/event.EventoCreate` (`model_dump()` always
contains every field; pydantic fills `status_evento` with "Orçamento" when
the client omits it). -/
structure EventoCreate where
  id_cliente : Int
  id_local_evento : Int
  data_evento : Nat
  id_tipo_evento : Option Int := none
  id_cidade : Option Int := none
  id_assessoria : Option Int := none
  id_buffet : Option Int := none
  horas_festa : Option ℚ := none
  qtde_convidados_prevista : Option Int := none
  status_evento : Option String := some "Orçamento"
  vlr_unitario_por_convidado : Option ℚ := none
  vlr_total_contrato : Option ℚ := none
  data_venda : Option Nat := none
  observacoes_venda : Option String := none
deriving DecidableEq

/-- A `Cliente` row with this id exists. -/
def clienteExists (db : Db) (i : Int) : Bool := db.clientes.any (fun x => x.id == i)

/-- A `LocalEvento` row with this id exists. -/
def localEventoExists (db : Db) (i : Int) : Bool :=
  db.locais_evento.any (fun x => x.id == i)

/-- A `TipoEvento` row with this id exists. -/
def tipoEventoExists (db : Db) (i : Int) : Bool :=
  db.tipos_evento.any (fun x => x.id == i)

/-- A `Cidade` row with this id exists. -/
def cidadeExists (db : Db) (i : Int) : Bool := db.cidades.any (fun x => x.id == i)

/-- An `Assessoria` row with this id exists. -/
def assessoriaExists (db : Db) (i : Int) : Bool :=
  db.assessorias.any (fun x => x.id == i)

/-- A `Buffet` row with this id exists. -/
def buffetExists (db : Db) (i : Int) : Bool := db.buffets.any (fun x => x.id == i)

/-- `crud_event.validate_evento_relationships` on a full `EventoCreate` dump:
each reference is checked only when its value is truthy (for the required
integer fields that means non-zero; for the optional ones, present and
non-zero), in source order, and the first missing reference raises 404. -/
def validate_evento_relationships (db : Db) (d : EventoCreate) : Option HttpError :=
  if d.id_cliente != 0 && !clienteExists db d.id_cliente then
    some { status_code := 404,
           detail := "Cliente com id " ++ toString d.id_cliente ++ " não encontrado." }
  else if d.id_local_evento != 0 && !localEventoExists db d.id_local_evento then
    some { status_code := 404,
           detail := "Local de evento com id " ++ toString d.id_local_evento ++
             " não encontrado." }
  else if truthyInt d.id_tipo_evento && !tipoEventoExists db (d.id_tipo_evento.getD 0) then
    some { status_code := 404,
           detail := "Tipo de evento com id " ++ toString (d.id_tipo_evento.getD 0) ++
             " não encontrado." }
  else if truthyInt d.id_cidade && !cidadeExists db (d.id_cidade.getD 0) then
    some { status_code := 404,
           detail := "Cidade com id " ++ toString (d.id_cidade.getD 0) ++
             " não encontrada." }
  else if truthyInt d.id_assessoria && !assessoriaExists db (d.id_assessoria.getD 0) then
    some { status_code := 404,
           detail := "Assessoria com id " ++ toString (d.id_assessoria.getD 0) ++
             " não encontrada." }
  else if truthyInt d.id_buffet && !buffetExists db (d.id_buffet.getD 0) then
    some { status_code := 404,
           detail := "Buffet com id " ++ toString (d.id_buffet.getD 0) ++
             " não encontrado." }
  else none

/-- The primary key the store would assign to a new `eventos` row. -/
def nextEventoId (db : Db) : Int := (db.eventos.map (fun e => e.id)).foldr max 0 + 1

/-- The new `eventos` row built from a create payload: creator stamped from
the authenticated caller, status defaulted to "Orçamento", timestamps
server-assigned (`now`). -/
def mkEvento (db : Db) (evento_in : EventoCreate) (user_id : Int) (now : Nat) : Evento :=
  { id := nextEventoId db
    data_evento := evento_in.data_evento
    horas_festa := evento_in.horas_festa
    qtde_convidados_prevista := evento_in.qtde_convidados_prevista
    status_evento := evento_in.status_evento.getD "Orçamento"
    id_cliente := evento_in.id_cliente
    id_local_evento := evento_in.id_local_evento
    id_tipo_evento := evento_in.id_tipo_evento
    id_cidade := evento_in.id_cidade
    id_assessoria := evento_in.id_assessoria
    id_buffet := evento_in.id_buffet
    id_usuario_criador := user_id
    vlr_unitario_por_convidado := evento_in.vlr_unitario_por_convidado
    vlr_total_contrato := evento_in.vlr_total_contrato
    data_venda := evento_in.data_venda
    observacoes_venda := evento_in.observacoes_venda
    created_at := now
    updated_at := now }

/-- The store's declared foreign-key constraints on an `eventos` row
(`models/event.py`: `id_cliente` and `id_local_evento` NOT NULL FKs, the
four optional dimension FKs checked when non-NULL, and the NOT NULL
`id_usuario_criador` FK to `usuarios`); the tests run with
`PRAGMA foreign_keys=ON` so the store enforces them all. -/
def eventoRowSatisfiesFKs (db : Db) (e : Evento) : Bool :=
  clienteExists db e.id_cliente &&
  localEventoExists db e.id_local_evento &&
  (match e.id_tipo_evento with | some v => tipoEventoExists db v | none => true) &&
  (match e.id_cidade with | some v => cidadeExists db v | none => true) &&
  (match e.id_assessoria with | some v => assessoriaExists db v | none => true) &&
  (match e.id_buffet with | some v => buffetExists db v | none => true) &&
  db.usuarios.any (fun u => u.id == e.id_usuario_criador)

/-- `crud_event.create_evento` as the `POST /eventos/` route runs it:
validate every truthy relationship first; then `db.commit()` either
persists the stamped row or, when the row violates a declared foreign-key
constraint, raises `IntegrityError`, which the route's generic `except
Exception` handler turns into `HTTPException(500, "Erro interno ao criar
evento")` — the transaction is aborted, so nothing is persisted. -/
def create_evento (db : Db) (evento_in : EventoCreate) (user_id : Int) (now : Nat) :
    Except HttpError (Db × Evento) :=
  match validate_evento_relationships db evento_in with
  | some err => .error err
  | none =>
    let ev := mkEvento db evento_in user_id now
    if eventoRowSatisfiesFKs db ev then
      .ok ({ db with eventos := db.eventos ++ [ev] }, ev)
    else .error { status_code := 500, detail := "Erro interno ao criar evento" }

/-- The store after a create-event request: errors leave it unchanged. -/
def dbAfterCreateEvento (db : Db) (evento_in : EventoCreate) (user_id : Int)
    (now : Nat) : Db :=
  match create_evento db evento_in user_id now with
  | .error _ => db
  | .ok p => p.1

/-! ## Partial updates (`CRUDBase.update` applied through the pydantic
update schemas), creator stamping at creation -/

/-- The payload of `schemas/event.EventoUpdate` after
`model_dump(exclude_unset=True)`: exactly the declared fields of the schema
(pydantic ignores undeclared keys), each `some v` when present.  The
`id_usuario_criador` column is not a field of the schema. -/
structure EventoUpdate where
  id_cliente : Option Int := none
  id_local_evento : Option Int := none
  id_tipo_evento : Option Int := none
  id_cidade : Option Int := none
  id_assessoria : Option Int := none
  id_buffet : Option Int := none
  data_evento : Option Nat := none
  horas_festa : Option ℚ := none
  qtde_convidados_prevista : Option Int := none
  status_evento : Option String := none
  vlr_unitario_por_convidado : Option ℚ := none
  vlr_total_contrato : Option ℚ := none
  data_venda : Option Nat := none
  observacoes_venda : Option String := none
deriving DecidableEq

/-- Overwrite a nullable column when the dump carries the field. -/
def setOpt {α : Type} (new : Option α) (old : Option α) : Option α :=
  match new with
  | some v => some v
  | none => old

/-- `setattr(evento_obj, field, value)` for every field of the dump. -/
def applyEventoUpdate (e : Evento) (upd : EventoUpdate) : Evento :=
  { e with
    id_cliente := upd.id_cliente.getD e.id_cliente
    id_local_evento := upd.id_local_evento.getD e.id_local_evento
    id_tipo_evento := setOpt upd.id_tipo_evento e.id_tipo_evento
    id_cidade := setOpt upd.id_cidade e.id_cidade
    id_assessoria := setOpt upd.id_assessoria e.id_assessoria
    id_buffet := setOpt upd.id_buffet e.id_buffet
    data_evento := upd.data_evento.getD e.data_evento
    horas_festa := setOpt upd.horas_festa e.horas_festa
    qtde_convidados_prevista := setOpt upd.qtde_convidados_prevista e.qtde_convidados_prevista
    status_evento := upd.status_evento.getD e.status_evento
    vlr_unitario_por_convidado := setOpt upd.vlr_unitario_por_convidado e.vlr_unitario_por_convidado
    vlr_total_contrato := setOpt upd.vlr_total_contrato e.vlr_total_contrato
    data_venda := setOpt upd.data_venda e.data_venda
    observacoes_venda := setOpt upd.observacoes_venda e.observacoes_venda }

/-- The payload of `schemas/event.DegustacaoUpdate` after
`model_dump(exclude_unset=True)`. -/
structure DegustacaoUpdate where
  data_degustacao : Option Nat := none
  vlr_degustacao : Option ℚ := none
  feedback_cliente : Option String := none
  status : Option String := none
deriving DecidableEq

/-- `setattr(degustacao_obj, field, value)` for every field of the dump. -/
def applyDegustacaoUpdate (g : Degustacao) (upd : DegustacaoUpdate) : Degustacao :=
  { g with
    data_degustacao := upd.data_degustacao.getD g.data_degustacao
    vlr_degustacao := setOpt upd.vlr_degustacao g.vlr_degustacao
    feedback_cliente := setOpt upd.feedback_cliente g.feedback_cliente
    status := upd.status.getD g.status }

/-- The payload of `schemas/dimension.ClienteUpdate` after
`model_dump(exclude_unset=True)`; representative of the seven dimension
update schemas, none of which declares `id_usuario_criador`. -/
structure ClienteUpdate where
  nome : Option String := none
  contato_principal : Option String := none
  telefone : Option String := none
  email : Option String := none
deriving DecidableEq

/-- `CRUDBase.update` for a `Cliente` row: `setattr` per dumped field. -/
def applyClienteUpdate (c : Cliente) (upd : ClienteUpdate) : Cliente :=
  { c with
    nome := upd.nome.getD c.nome
    contato_principal := setOpt upd.contato_principal c.contato_principal
    telefone := setOpt upd.telefone c.telefone
    email := setOpt upd.email c.email }

/-- The payload of `schemas/event.DespesaCreate` (all fields required). -/
structure DespesaCreate where
  id_insumo : Int
  quantidade : ℚ
  vlr_unitario_pago : ℚ
  vlr_total_pago : ℚ
  data_despesa : Nat
deriving DecidableEq

/-- The primary key the store would assign to a new `despesas` row. -/
def nextDespesaId (db : Db) : Int := (db.despesas.map (fun d => d.id)).foldr max 0 + 1

/-- `crud_event.add_despesa_to_evento`: validate the `Insumo`, then insert
the child row stamped with its own creator (`id_usuario_criador = user_id`). -/
def add_despesa_to_evento (db : Db) (evento_id : Int) (despesa_in : DespesaCreate)
    (user_id : Int) (now : Nat) : Except HttpError (Db × Despesa) :=
  if !insumoExists db despesa_in.id_insumo then
    .error { status_code := 404,
             detail := "Insumo com id " ++ toString despesa_in.id_insumo ++
               " não encontrado." }
  else
    let d : Despesa :=
      { id := nextDespesaId db
        quantidade := despesa_in.quantidade
        vlr_unitario_pago := despesa_in.vlr_unitario_pago
        vlr_total_pago := despesa_in.vlr_total_pago
        data_despesa := despesa_in.data_despesa
        id_evento := evento_id
        id_insumo := despesa_in.id_insumo
        id_usuario_criador := user_id
        created_at := now
        updated_at := now }
    .ok ({ db with despesas := db.despesas ++ [d] }, d)

/-! ## User management (`routers/users.create_user`, `delete_user_by_admin`) -/

/-- The payload of `schemas/user.UserCreate` (defaults as in the schema). -/
structure UserCreate where
  email : String
  username : String
  nome_completo : Option String := none
  is_active : Bool := true
  perfil : String := "operacional"
  password : String
deriving DecidableEq

/-- `crud_user.get_user_by_email`. -/
def get_user_by_email (db : Db) (email : String) : Option Usuario :=
  db.usuarios.find? (fun u => u.email == email)

/-- The primary key the store would assign to a new `usuarios` row. -/
def nextUserId (db : Db) : Int := (db.usuarios.map (fun u => u.id)).foldr max 0 + 1

/-- The `POST /users/` handler `create_user`: a duplicate email raises
`HTTPException(status_code=400)` before any insert; otherwise the row is
created (password hashing is the out-of-scope collaborator and is dropped). -/
def create_user_endpoint (db : Db) (user_in : UserCreate) :
    Except HttpError (Db × Usuario) :=
  match get_user_by_email db user_in.email with
  | some _ =>
    .error { status_code := 400,
             detail := "Já existe um usuário com este email no sistema." }
  | none =>
    let u : Usuario :=
      { id := nextUserId db
        username := user_in.username
        email := user_in.email
        nome_completo := user_in.nome_completo
        perfil := user_in.perfil
        is_active := user_in.is_active }
    .ok ({ db with usuarios := db.usuarios ++ [u] }, u)

/-- The store after a create-user request: errors leave it unchanged. -/
def dbAfterCreateUser (db : Db) (user_in : UserCreate) : Db :=
  match create_user_endpoint db user_in with
  | .error _ => db
  | .ok p => p.1

/-- The base scope every report shares: ownership filter intersected with
the optional inclusive date range on `data_evento`. -/
def eventosScope (db : Db) (current_user : Usuario) (data_inicio data_fim : Option Nat) :
    List Evento :=
  let q := ownershipScope current_user db.eventos
  let q := match data_inicio with
    | some v => q.filter (fun e => decide (v ≤ e.data_evento))
    | none => q
  match data_fim with
  | some v => q.filter (fun e => decide (e.data_evento ≤ v))
  | none => q

/-- The distinct values of a list in first-occurrence order, the order this
model gives `GROUP BY` keys (`seen` accumulates the keys already emitted). -/
def firstOccurrencesGo {α : Type} [BEq α] (seen : List α) : List α → List α
  | [] => []
  | a :: t =>
    if seen.contains a then firstOccurrencesGo seen t
    else a :: firstOccurrencesGo (a :: seen) t

/-- The distinct values of a list in first-occurrence order. -/
def firstOccurrences {α : Type} [BEq α] (l : List α) : List α :=
  firstOccurrencesGo [] l

/-- One output row of `get_eventos_por_status`. -/
structure EventosPorStatusRow where
  status_evento : String
  total_eventos : Nat
  percentual : ℚ
  valor_total_contratos : ℚ
deriving DecidableEq

/-- `SUM(vlr_total_contrato)` over a group with `COALESCE(..., 0)`:
NULL contract values contribute nothing. -/
def sumContratos (l : List Evento) : ℚ :=
  (l.map (fun e => e.vlr_total_contrato.getD 0)).sum

/-- `crud_event.get_eventos_por_status`: count the scope; when it is zero
return the empty list; otherwise one row per status present in the scope
with its count, `(count / total) * 100` (no rounding anywhere in the
source), and its contract-value sum. -/
def get_eventos_por_status (db : Db) (current_user : Usuario)
    (data_inicio data_fim : Option Nat) : List EventosPorStatusRow :=
  let scope := eventosScope db current_user data_inicio data_fim
  let total_eventos_geral := scope.length
  if total_eventos_geral = 0 then []
  else
    (firstOccurrences (scope.map (fun e => e.status_evento))).map (fun s =>
      let grp := scope.filter (fun e => e.status_evento == s)
      { status_evento := s
        total_eventos := grp.length
        percentual := ((grp.length : ℚ) / (total_eventos_geral : ℚ)) * 100
        valor_total_contratos := sumContratos grp })

/-- Modelled from the spec's words, for comparison only: "percent-of-total
rounded to 2 decimals". -/
def round2Spec (q : ℚ) : ℚ := ((round (q * 100) : ℤ) : ℚ) / 100

/-- One output row of `get_eventos_por_mes`; the month bucket
`to_char(data_evento, "YYYY-MM")` is `data_evento / 100` in the YYYYMMDD
encoding. -/
structure EventosPorMesRow where
  mes_ano : Nat
  total_eventos : Nat
  valor_total_contratos : ℚ
deriving DecidableEq

/-- The month bucket of an event. -/
def mesAno (e : Evento) : Nat := e.data_evento / 100

/-- The full grouped-by-month report, ordered ascending by month, before
the `LIMIT` is applied. -/
def monthRowsAll (db : Db) (current_user : Usuario)
    (data_inicio data_fim : Option Nat) : List EventosPorMesRow :=
  let scope := eventosScope db current_user data_inicio data_fim
  let meses := sortByLe (fun a b => decide (a ≤ b))
    (firstOccurrences (scope.map mesAno))
  meses.map (fun m =>
    let grp := scope.filter (fun e => mesAno e == m)
    { mes_ano := m
      total_eventos := grp.length
      valor_total_contratos := sumContratos grp })

/-- `crud_event.get_eventos_por_mes`: group by month, order ascending,
`LIMIT limit`; every caller of the function (the `/stats/por-mes` route and
the dashboard) leaves `limit` at its default 12. -/
def get_eventos_por_mes (db : Db) (current_user : Usuario)
    (data_inicio data_fim : Option Nat) (limit : Nat := 12) :
    List EventosPorMesRow :=
  (monthRowsAll db current_user data_inicio data_fim).take limit

/-! ## Concrete sample data, used by witnesses and counterexamples -/

/-- An administrative user. -/
def uAdm : Usuario :=
  { id := 1, username := "admin", email := "admin@example.com",
    nome_completo := some "Admin", perfil := "administrativo", is_active := true }

/-- An operational user. -/
def uOp : Usuario :=
  { id := 2, username := "op", email := "op@example.com",
    nome_completo := some "Operacional", perfil := "operacional", is_active := true }

/-- A second operational user. -/
def uOp3 : Usuario :=
  { id := 3, username := "op3", email := "op3@example.com",
    nome_completo := none, perfil := "operacional", is_active := true }

/-- An event owned by `uOp`, status "Confirmado". -/
def evW1 : Evento :=
  { id := 1, data_evento := 20250110, horas_festa := none,
    qtde_convidados_prevista := some 100, status_evento := "Confirmado",
    id_cliente := 1, id_local_evento := 1, id_tipo_evento := none,
    id_cidade := none, id_assessoria := none, id_buffet := none,
    id_usuario_criador := 2, vlr_unitario_por_convidado := none,
    vlr_total_contrato := some 1000, data_venda := none,
    observacoes_venda := none, created_at := 20250101, updated_at := 20250101 }

/-- An event owned by `uOp`, status "Orçamento". -/
def evW2 : Evento :=
  { id := 2, data_evento := 20250215, horas_festa := none,
    qtde_convidados_prevista := none, status_evento := "Orçamento",
    id_cliente := 1, id_local_evento := 1, id_tipo_evento := none,
    id_cidade := none, id_assessoria := none, id_buffet := none,
    id_usuario_criador := 2, vlr_unitario_por_convidado := none,
    vlr_total_contrato := some 500, data_venda := none,
    observacoes_venda := none, created_at := 20250102, updated_at := 20250102 }

/-- An event owned by `uOp3`, status "Orçamento". -/
def evW3 : Evento :=
  { id := 3, data_evento := 20250320, horas_festa := none,
    qtde_convidados_prevista := none, status_evento := "Orçamento",
    id_cliente := 1, id_local_evento := 1, id_tipo_evento := none,
    id_cidade := none, id_assessoria := none, id_buffet := none,
    id_usuario_criador := 3, vlr_unitario_por_convidado := none,
    vlr_total_contrato := none, data_venda := none,
    observacoes_venda := none, created_at := 20250103, updated_at := 20250103 }

/-- An expense under `evW1` created by `uOp3` (not by the event's owner). -/
def despW1 : Despesa :=
  { id := 1, quantidade := 2, vlr_unitario_pago := 10, vlr_total_pago := 20,
    data_despesa := 20250105, id_evento := 1, id_insumo := 1,
    id_usuario_criador := 3, created_at := 20250105, updated_at := 20250105 }

/-- The sample store. -/
def dbW : Db :=
  { usuarios := [uAdm, uOp, uOp3]
    clientes := [{ id := 1, nome := "Maria", contato_principal := none,
                   telefone := none, email := none, id_usuario_criador := 2 }]
    locais_evento := [{ id := 1, descricao := "Salão", id_usuario_criador := 2 }]
    tipos_evento := []
    cidades := []
    assessorias := []
    buffets := []
    insumos := [{ id := 1, descricao := "Carne", id_usuario_criador := 2 }]
    eventos := [evW1, evW2, evW3]
    despesas := [despW1]
    degustacoes := [] }

/-- A create-event payload whose required references are both the falsy
integer 0 (so the truthiness guards skip every existence check). -/
def einZero : EventoCreate :=
  { id_cliente := 0, id_local_evento := 0, data_evento := 20250601 }

/-- A create-user payload that reuses `uOp`'s email. -/
def uinDup : UserCreate :=
  { email := "op@example.com", username := "outra", nome_completo := none,
    is_active := true, perfil := "operacional", password := "x" }

/-! ## Supporting lemmas about the sort model -/

theorem mem_insertSorted {α : Type} (le : α → α → Bool) (a x : α) (l : List α) :
    x ∈ insertSorted le a l ↔ x = a ∨ x ∈ l := by
  induction l with
  | nil => simp [insertSorted]
  | cons b t ih =>
    simp only [insertSorted]
    split
    · simp [List.mem_cons]
    · simp only [List.mem_cons, ih]
      tauto

theorem mem_sortByLe {α : Type} (le : α → α → Bool) (x : α) (l : List α) :
    x ∈ sortByLe le l ↔ x ∈ l := by
  induction l with
  | nil => simp [sortByLe]
  | cons a t ih =>
    simp only [sortByLe, mem_insertSorted, ih, List.mem_cons]

theorem mem_get_multi_eventos (db : Db) (u : Usuario) (skip limit : Nat)
    (f : EventoFilters) (ob od : String) (e : Evento)
    (he : e ∈ get_multi_eventos db u skip limit f ob od) :
    e ∈ ownershipScope u db.eventos ∧ eventoMatchesFilters f e = true := by
  have h1 : e ∈ sortEventos ob od ((ownershipScope u db.eventos).filter (eventoMatchesFilters f)) :=
    List.mem_of_mem_drop (List.mem_of_mem_take he)
  have h2 : e ∈ (ownershipScope u db.eventos).filter (eventoMatchesFilters f) := by
    unfold sortEventos at h1
    split at h1 <;> exact (mem_sortByLe _ _ _).mp h1
  exact ⟨(List.mem_filter.mp h2).1, (List.mem_filter.mp h2).2⟩

theorem mem_firstOccurrencesGo {α : Type} [BEq α] [LawfulBEq α]
    (x : α) (l : List α) : ∀ seen : List α,
    x ∈ l → seen.contains x = false → x ∈ firstOccurrencesGo seen l := by
  induction l with
  | nil => intro seen hx _; cases hx
  | cons a t ih =>
    intro seen hx hseen
    unfold firstOccurrencesGo
    rcases List.mem_cons.mp hx with rfl | hxt
    · split
      · next hc =>
        rw [hseen] at hc
        cases hc
      · exact List.mem_cons_self _ _
    · split
      · exact ih seen hxt hseen
      · by_cases hxa : x = a
        · exact hxa ▸ List.mem_cons_self _ _
        · refine List.mem_cons_of_mem _ (ih (a :: seen) hxt ?_)
          simp only [List.contains_cons, hseen, Bool.or_false]
          exact beq_false_of_ne hxa

theorem mem_firstOccurrences {α : Type} [BEq α] [LawfulBEq α] (x : α) (l : List α)
    (hx : x ∈ l) : x ∈ firstOccurrences l :=
  mem_firstOccurrencesGo x l [] hx rfl

theorem pairwise_insertSorted_nat (a : Nat) (l : List Nat)
    (h : l.Pairwise (fun x y => x ≤ y)) :
    (insertSorted (fun x y => decide (x ≤ y)) a l).Pairwise (fun x y => x ≤ y) := by
  induction l with
  | nil => simp [insertSorted]
  | cons b t ih =>
    simp only [insertSorted]
    rcases List.pairwise_cons.mp h with ⟨hb, ht⟩
    split
    · next hab =>
      refine List.pairwise_cons.mpr ⟨?_, h⟩
      intro x hx
      rcases List.mem_cons.mp hx with rfl | hxt
      · exact of_decide_eq_true hab
      · exact le_trans (of_decide_eq_true hab) (hb x hxt)
    · next hab =>
      refine List.pairwise_cons.mpr ⟨?_, ih ht⟩
      intro x hx
      rcases (mem_insertSorted _ _ _ _).mp hx with rfl | hxt
      · exact le_of_not_le (fun hc => hab (decide_eq_true hc))
      · exact hb x hxt

theorem pairwise_sortByLe_nat (l : List Nat) :
    (sortByLe (fun x y => decide (x ≤ y)) l).Pairwise (fun x y => x ≤ y) := by
  induction l with
  | nil => simp [sortByLe]
  | cons a t ih => exact pairwise_insertSorted_nat a _ ih

theorem ceil_div_characterization (t s : Nat) (ht : 0 < t) (hs : 0 < s) :
    t ≤ s * ((t + s - 1) / s) ∧ s * ((t + s - 1) / s - 1) < t := by
  have hdm := Nat.div_add_mod (t + s - 1) s
  have hml : (t + s - 1) % s < s := Nat.mod_lt _ hs
  generalize hr : (t + s - 1) % s = r at hdm hml
  rcases hd : (t + s - 1) / s with _ | d
  · rw [hd] at hdm
    simp only [Nat.mul_zero, Nat.zero_add] at hdm
    omega
  · rw [hd] at hdm
    rw [Nat.mul_succ] at hdm
    have hsub : d + 1 - 1 = d := rfl
    refine ⟨?_, ?_⟩
    · rw [Nat.mul_succ]
      generalize s * d = k at hdm ⊢
      omega
    · rw [hsub]
      generalize s * d = k at hdm ⊢
      omega

/-- C1: for every caller, under any combination of the optional filters,
pagination and ordering: an operational (non-administrative) caller gets
from `get_multi_eventos` only events whose `id_usuario_criador` equals the
caller's id, and `count_eventos` counts exactly the caller-owned events that
pass the filters; for an administrative caller no ownership filter is
applied — the listing is the sorted, paginated filter-only set and the
count is the size of the full filter-only set. -/
theorem eventos_ownership_scoping (db : Db) (u : Usuario) (skip limit : Nat)
    (f : EventoFilters) (ob od : String) :
    (∀ e ∈ get_multi_eventos db u skip limit f ob od,
        u.perfil ≠ "administrativo" → e.id_usuario_criador = u.id) ∧
    (u.perfil ≠ "administrativo" →
        count_eventos db u f =
          ((db.eventos.filter (fun e => e.id_usuario_criador == u.id)).filter
            (eventoMatchesFilters f)).length) ∧
    (u.perfil = "administrativo" →
        get_multi_eventos db u skip limit f ob od =
          ((sortEventos ob od (db.eventos.filter (eventoMatchesFilters f))).drop skip).take limit ∧
        count_eventos db u f = (db.eventos.filter (eventoMatchesFilters f)).length) := by
  refine ⟨?_, ?_, ?_⟩
  · intro e he hop
    have h := (mem_get_multi_eventos db u skip limit f ob od e he).1
    unfold ownershipScope at h
    rw [if_pos (by simpa using hop)] at h
    simpa using (List.mem_filter.mp h).2
  · intro hop
    unfold count_eventos ownershipScope
    rw [if_pos (by simpa using hop)]
  · intro hadm
    constructor
    · unfold get_multi_eventos ownershipScope
      rw [if_neg (by simp [hadm])]
    · unfold count_eventos ownershipScope
      rw [if_neg (by simp [hadm])]

/-- C8: a sort key outside the allow-list `valid_order_fields` makes the
listing silently fall back to sorting by `data_evento` (the resolved key is
`"data_evento"` and the result coincides with an explicit `data_evento`
request), and for any key the direction is ascending exactly when the
direction argument lower-cases to "asc", descending otherwise. -/
theorem order_by_allowlist_fallback (db : Db) (u : Usuario) (skip limit : Nat)
    (f : EventoFilters) (od ob : String)
    (hob : ob ∉ valid_order_fields) :
    resolveOrderBy ob = "data_evento" ∧
    get_multi_eventos db u skip limit f ob od =
      get_multi_eventos db u skip limit f "data_evento" od ∧
    (∀ l : List Evento, sortEventos ob od l =
      if od.toLower == "asc" then sortByLe (eventoKeyLe "data_evento") l
      else sortByLe (fun a b => eventoKeyLe "data_evento" b a) l) := by
  have hres : resolveOrderBy ob = "data_evento" := by
    unfold resolveOrderBy
    rw [if_neg hob]
  have hres2 : resolveOrderBy "data_evento" = "data_evento" := by
    unfold resolveOrderBy
    rw [if_pos (by simp [valid_order_fields])]
  have hsort : ∀ l : List Evento, sortEventos ob od l = sortEventos "data_evento" od l := by
    intro l
    unfold sortEventos
    rw [hres, hres2]
  refine ⟨hres, ?_, ?_⟩
  · simp only [get_multi_eventos, hsort]
  · intro l
    rw [hsort]
    unfold sortEventos
    rw [hres2]

/-- C8 witness: the unrecognized key "foo" behaves as `data_evento` on the
sample store. -/
theorem order_by_allowlist_fallback_witness :
    resolveOrderBy "foo" = "data_evento" ∧
    get_multi_eventos dbW uOp 0 100 {} "foo" "desc" =
      get_multi_eventos dbW uOp 0 100 {} "data_evento" "desc" :=
  ⟨(order_by_allowlist_fallback dbW uOp 0 100 {} "desc" "foo" (by decide)).1,
   (order_by_allowlist_fallback dbW uOp 0 100 {} "desc" "foo" (by decide)).2.1⟩

/-- C6: for every page ≥ 1 and page_size in [1,100], the `read_eventos`
envelope queries with offset `(page - 1) * page_size`, reports the filtered
total, and computes `total_pages` as the exact ceiling of
`total / page_size` (0 when the total is 0: the two inequalities pin
`total_pages` as the least n with `total ≤ page_size * n`),
`has_next = (page < total_pages)` and `has_previous = (page > 1)`. -/
theorem read_eventos_pagination (db : Db) (u : Usuario) (page page_size : Nat)
    (f : EventoFilters) (ob od : String)
    (hp : 1 ≤ page) (hs1 : 1 ≤ page_size) (hs2 : page_size ≤ 100) :
    (read_eventos db u page page_size f ob od).items =
      get_multi_eventos db u ((page - 1) * page_size) page_size f ob od ∧
    (read_eventos db u page page_size f ob od).total = count_eventos db u f ∧
    (count_eventos db u f = 0 →
      (read_eventos db u page page_size f ob od).total_pages = 0) ∧
    (0 < count_eventos db u f →
      count_eventos db u f ≤
        page_size * (read_eventos db u page page_size f ob od).total_pages ∧
      page_size * ((read_eventos db u page page_size f ob od).total_pages - 1) <
        count_eventos db u f) ∧
    (read_eventos db u page page_size f ob od).has_next =
      decide (page < (read_eventos db u page page_size f ob od).total_pages) ∧
    (read_eventos db u page page_size f ob od).has_previous = decide (1 < page) := by
  have htp : (read_eventos db u page page_size f ob od).total_pages =
      if count_eventos db u f > 0 then (count_eventos db u f + page_size - 1) / page_size
      else 0 := rfl
  refine ⟨rfl, rfl, ?_, ?_, rfl, rfl⟩
  · intro h0
    rw [htp, h0]
    simp
  · intro hpos
    rw [htp, if_pos hpos]
    exact ceil_div_characterization (count_eventos db u f) page_size hpos hs1

/-- C6 witness: the envelope laws instantiated on the sample store at
page 2 of size 2 (three events in scope, so two pages). -/
theorem read_eventos_pagination_witness :
    (read_eventos dbW uAdm 2 2 {} "data_evento" "desc").items =
      get_multi_eventos dbW uAdm ((2 - 1) * 2) 2 {} "data_evento" "desc" ∧
    (read_eventos dbW uAdm 2 2 {} "data_evento" "desc").total = count_eventos dbW uAdm {} ∧
    (count_eventos dbW uAdm {} = 0 →
      (read_eventos dbW uAdm 2 2 {} "data_evento" "desc").total_pages = 0) ∧
    (0 < count_eventos dbW uAdm {} →
      count_eventos dbW uAdm {} ≤
        2 * (read_eventos dbW uAdm 2 2 {} "data_evento" "desc").total_pages ∧
      2 * ((read_eventos dbW uAdm 2 2 {} "data_evento" "desc").total_pages - 1) <
        count_eventos dbW uAdm {}) ∧
    (read_eventos dbW uAdm 2 2 {} "data_evento" "desc").has_next =
      decide (2 < (read_eventos dbW uAdm 2 2 {} "data_evento" "desc").total_pages) ∧
    (read_eventos dbW uAdm 2 2 {} "data_evento" "desc").has_previous = decide (1 < 2) :=
  read_eventos_pagination dbW uAdm 2 2 {} "data_evento" "desc"
    (by decide) (by decide) (by decide)

/-- C2: for an operational caller, updating or deleting an expense under an
event applies two independent authorization layers in order: 404 when the
event is absent; 403 ("…este evento") when the caller is not the event's
creator; 404 when the expense id is not among that event's children; and
finally 403 ("…esta despesa") when the expense's own `id_usuario_criador`
differs from the caller's id, even though the caller owns the event — and
in that case the store is unchanged (no mutation). -/
theorem despesa_two_layer_authorization (db : Db) (u : Usuario)
    (eid did : Int) (din : DespesaUpdate)
    (hop : u.perfil ≠ "administrativo") :
    (get_evento db eid = none →
      update_despesa_for_evento db u eid did din =
        .error { status_code := 404, detail := "Evento não encontrado" } ∧
      delete_despesa_for_evento db u eid did =
        .error { status_code := 404, detail := "Evento não encontrado" }) ∧
    (∀ ev, get_evento db eid = some ev → ev.id_usuario_criador ≠ u.id →
      update_despesa_for_evento db u eid did din =
        .error { status_code := 403,
                 detail := "Você não tem permissão para modificar este evento" } ∧
      delete_despesa_for_evento db u eid did =
        .error { status_code := 403,
                 detail := "Você não tem permissão para modificar este evento" }) ∧
    (∀ ev, get_evento db eid = some ev → ev.id_usuario_criador = u.id →
      ((eventoDespesas db ev).find? (fun d => d.id == did) = none →
        update_despesa_for_evento db u eid did din =
          .error { status_code := 404,
                   detail := "Despesa com id " ++ toString did ++
                     " não encontrada neste evento." } ∧
        delete_despesa_for_evento db u eid did =
          .error { status_code := 404,
                   detail := "Despesa com id " ++ toString did ++
                     " não encontrada neste evento." }) ∧
      (∀ d, (eventoDespesas db ev).find? (fun x => x.id == did) = some d →
        d.id_usuario_criador ≠ u.id →
        update_despesa_for_evento db u eid did din =
          .error { status_code := 403,
                   detail := "Você não tem permissão para modificar esta despesa. Apenas o criador ou administradores podem editá-la." } ∧
        delete_despesa_for_evento db u eid did =
          .error { status_code := 403,
                   detail := "Você não tem permissão para deletar esta despesa. Apenas o criador ou administradores podem excluí-la." } ∧
        dbAfterUpdateDespesa db u eid did din = db ∧
        dbAfterDeleteDespesa db u eid did = db)) := by
  refine ⟨?_, ?_, ?_⟩
  · intro hnone
    constructor
    · simp [update_despesa_for_evento, validate_event_permission, hnone]
    · simp [delete_despesa_for_evento, validate_event_permission, hnone]
  · intro ev hev hne
    have hvp : validate_event_permission (get_evento db eid) u "modificar" =
        .error { status_code := 403,
                 detail := "Você não tem permissão para modificar este evento" } := by
      rw [hev]
      simp [validate_event_permission, hop, hne]
    constructor
    · simp [update_despesa_for_evento, hvp]
    · simp [delete_despesa_for_evento, hvp]
  · intro ev hev hcr
    have hvp : validate_event_permission (get_evento db eid) u "modificar" = .ok ev := by
      rw [hev]
      simp [validate_event_permission, hcr]
    constructor
    · intro hfind
      constructor
      · simp [update_despesa_for_evento, hvp, hfind]
      · simp [delete_despesa_for_evento, hvp, hfind]
    · intro d hfind hdne
      have hupd : update_despesa_for_evento db u eid did din =
          .error { status_code := 403,
                   detail := "Você não tem permissão para modificar esta despesa. Apenas o criador ou administradores podem editá-la." } := by
        simp [update_despesa_for_evento, hvp, hfind, hop, hdne]
      have hdel : delete_despesa_for_evento db u eid did =
          .error { status_code := 403,
                   detail := "Você não tem permissão para deletar esta despesa. Apenas o criador ou administradores podem excluí-la." } := by
        simp [delete_despesa_for_evento, hvp, hfind, hop, hdne]
      exact ⟨hupd, hdel, by simp [dbAfterUpdateDespesa, hupd],
        by simp [dbAfterDeleteDespesa, hdel]⟩

/-- C2 witness: on the sample store the operational user `uOp` owns event 1
but not expense 1 (created by `uOp3`); both mutation requests are rejected
with 403 and the store is unchanged. -/
theorem despesa_two_layer_witness :
    update_despesa_for_evento dbW uOp 1 1 {} =
      .error { status_code := 403,
               detail := "Você não tem permissão para modificar esta despesa. Apenas o criador ou administradores podem editá-la." } ∧
    delete_despesa_for_evento dbW uOp 1 1 =
      .error { status_code := 403,
               detail := "Você não tem permissão para deletar esta despesa. Apenas o criador ou administradores podem excluí-la." } ∧
    dbAfterUpdateDespesa dbW uOp 1 1 {} = dbW ∧
    dbAfterDeleteDespesa dbW uOp 1 1 = dbW :=
  ((despesa_two_layer_authorization dbW uOp 1 1 {} (by decide)).2.2 evW1
    (by decide) (by decide)).2 despW1 (by decide) (by decide)

/-- C3 (amended): every failure of `create_evento` leaves the store
unchanged (no insert) and is either a 404 from the code-level validation or
the 500 the route returns when the store's foreign-key constraint rejects
the commit; a non-existent `id_cliente` is rejected with the naming 404
provided it is non-zero; a successful create guarantees every TRUTHY
reference of the payload exists; and a reference whose value is the falsy
integer 0 bypasses the code-level validation entirely, so a non-existent
`id_cliente` of 0 reaches the store and fails as a 500, not as the claimed
naming NotFound. -/
theorem create_evento_validates_truthy_refs (db : Db) (ein : EventoCreate)
    (uid : Int) (now : Nat) :
    (∀ err, create_evento db ein uid now = .error err →
      (err.status_code = 404 ∨ err.status_code = 500) ∧
      dbAfterCreateEvento db ein uid now = db) ∧
    (ein.id_cliente ≠ 0 → clienteExists db ein.id_cliente = false →
      create_evento db ein uid now =
        .error { status_code := 404,
                 detail := "Cliente com id " ++ toString ein.id_cliente ++
                   " não encontrado." }) ∧
    (∀ res, create_evento db ein uid now = .ok res →
      (ein.id_cliente ≠ 0 → clienteExists db ein.id_cliente = true) ∧
      (ein.id_local_evento ≠ 0 → localEventoExists db ein.id_local_evento = true) ∧
      (truthyInt ein.id_tipo_evento = true →
        tipoEventoExists db (ein.id_tipo_evento.getD 0) = true) ∧
      (truthyInt ein.id_cidade = true → cidadeExists db (ein.id_cidade.getD 0) = true) ∧
      (truthyInt ein.id_assessoria = true →
        assessoriaExists db (ein.id_assessoria.getD 0) = true) ∧
      (truthyInt ein.id_buffet = true → buffetExists db (ein.id_buffet.getD 0) = true)) ∧
    (ein.id_cliente = 0 → clienteExists db 0 = false →
      validate_evento_relationships db ein = none →
      create_evento db ein uid now =
        .error { status_code := 500, detail := "Erro interno ao criar evento" }) := by
  refine ⟨?_, ?_, ?_, ?_⟩
  · intro err herr
    rcases hv : validate_evento_relationships db ein with _ | e
    · unfold create_evento at herr
      simp only [hv] at herr
      split at herr
      · cases herr
      · next hfk =>
        have he : ({ status_code := 500, detail := "Erro interno ao criar evento" } :
            HttpError) = err := by
          injection herr with h
        refine ⟨Or.inr (by rw [← he]), ?_⟩
        unfold dbAfterCreateEvento create_evento
        simp only [hv]
        rw [if_neg hfk]
    · unfold create_evento at herr
      rw [hv] at herr
      have he : e = err := by
        injection herr with h
      have h404 : e.status_code = 404 := by
        unfold validate_evento_relationships at hv
        split_ifs at hv <;> (injection hv with h2; rw [← h2])
      refine ⟨Or.inl (he ▸ h404), ?_⟩
      simp [dbAfterCreateEvento, create_evento, hv]
  · intro h1 h2
    unfold create_evento validate_evento_relationships
    rw [if_pos (by simp [bne_iff_ne, h1, h2])]
  · intro res hres
    rcases hv : validate_evento_relationships db ein with _ | e
    · unfold validate_evento_relationships at hv
      split_ifs at hv with g1 g2 g3 g4 g5 g6
      simp only [Bool.and_eq_true, Bool.not_eq_true', bne_iff_ne, not_and] at g1 g2 g3 g4 g5 g6
      refine ⟨?_, ?_, ?_, ?_, ?_, ?_⟩
      · intro h
        have := g1 h
        simpa using this
      · intro h
        have := g2 h
        simpa using this
      · intro h
        have := g3 (by simpa using h)
        simpa using this
      · intro h
        have := g4 (by simpa using h)
        simpa using this
      · intro h
        have := g5 (by simpa using h)
        simpa using this
      · intro h
        have := g6 (by simpa using h)
        simpa using this
    · unfold create_evento at hres
      rw [hv] at hres
      cases hres
  · intro h0 hnc hv
    have hfk : eventoRowSatisfiesFKs db (mkEvento db ein uid now) = false := by
      unfold eventoRowSatisfiesFKs
      rw [show (mkEvento db ein uid now).id_cliente = ein.id_cliente from rfl, h0, hnc]
      simp
    unfold create_evento
    simp only [hv]
    rw [if_neg (by simp [hfk])]

/-- C3 counterexample: `id_cliente = 0` names no existing client, yet the
create request does not fail with the claimed naming NotFound — the Python
truthiness guard `if evento_data["id_cliente"]:` skips the code-level
check, the store's foreign-key constraint then rejects the commit, and the
route answers 500 "Erro interno ao criar evento" (no row persisted). -/
theorem create_evento_zero_cliente_counterexample :
    clienteExists dbW 0 = false ∧
    create_evento dbW einZero 1 20250601 =
      .error { status_code := 500, detail := "Erro interno ao criar evento" } ∧
    (500 : Nat) ≠ 404 ∧
    dbAfterCreateEvento dbW einZero 1 20250601 = dbW := by
  refine ⟨by decide, by rfl, by decide, by decide⟩

/-- C4: `id_usuario_criador` is immutable through the public update
interface — the pydantic update schemas (event, expense, tasting, and the
dimension schemas, represented by `ClienteUpdate`) do not declare the field,
so applying any dump leaves it unchanged — and it is assigned exactly once
at creation, from the authenticated caller's id, by `create_evento` and
`add_despesa_to_evento`. -/
theorem id_usuario_criador_immutable :
    (∀ (e : Evento) (upd : EventoUpdate),
      (applyEventoUpdate e upd).id_usuario_criador = e.id_usuario_criador) ∧
    (∀ (d : Despesa) (upd : DespesaUpdate),
      (applyDespesaUpdate d upd).id_usuario_criador = d.id_usuario_criador) ∧
    (∀ (g : Degustacao) (upd : DegustacaoUpdate),
      (applyDegustacaoUpdate g upd).id_usuario_criador = g.id_usuario_criador) ∧
    (∀ (c : Cliente) (upd : ClienteUpdate),
      (applyClienteUpdate c upd).id_usuario_criador = c.id_usuario_criador) ∧
    (∀ (db : Db) (ein : EventoCreate) (uid : Int) (now : Nat) (res : Db × Evento),
      create_evento db ein uid now = .ok res → res.2.id_usuario_criador = uid) ∧
    (∀ (db : Db) (eid : Int) (din : DespesaCreate) (uid : Int) (now : Nat)
        (res : Db × Despesa),
      add_despesa_to_evento db eid din uid now = .ok res →
        res.2.id_usuario_criador = uid) := by
  refine ⟨fun _ _ => rfl, fun _ _ => rfl, fun _ _ => rfl, fun _ _ => rfl, ?_, ?_⟩
  · intro db ein uid now res hres
    unfold create_evento at hres
    rcases hv : validate_evento_relationships db ein with _ | e
    · simp only [hv] at hres
      split at hres
      · injection hres with h
        rw [← h]
        rfl
      · cases hres
    · rw [hv] at hres
      cases hres
  · intro db eid din uid now res hres
    unfold add_despesa_to_evento at hres
    split at hres
    · cases hres
    · injection hres with h
      rw [← h]

/-- C7 (amended): over the ownership-and-date-range scope,
`get_eventos_por_status` returns the empty list when the scope is empty
(never dividing by zero); otherwise one row for each status present, whose
count is the number of scoped events with that status, whose contract sum
is their coalesced sum, and whose percentage is EXACTLY
`(count / total) * 100` with the scope size as denominator — the source
applies no rounding. -/
theorem por_status_exact_percentages (db : Db) (u : Usuario) (di df : Option Nat) :
    (eventosScope db u di df = [] → get_eventos_por_status db u di df = []) ∧
    (∀ e ∈ eventosScope db u di df, ∃ row ∈ get_eventos_por_status db u di df,
        row.status_evento = e.status_evento) ∧
    (∀ row ∈ get_eventos_por_status db u di df,
      row.total_eventos =
        ((eventosScope db u di df).filter
          (fun e => e.status_evento == row.status_evento)).length ∧
      row.percentual =
        ((row.total_eventos : ℚ) / ((eventosScope db u di df).length : ℚ)) * 100 ∧
      row.valor_total_contratos =
        sumContratos ((eventosScope db u di df).filter
          (fun e => e.status_evento == row.status_evento))) := by
  refine ⟨?_, ?_, ?_⟩
  · intro h
    simp [get_eventos_por_status, h]
  · intro e he
    have hne : ¬ (eventosScope db u di df).length = 0 := by
      intro h0
      rw [List.length_eq_zero] at h0
      rw [h0] at he
      cases he
    have hmem : e.status_evento ∈
        firstOccurrences ((eventosScope db u di df).map (fun x => x.status_evento)) :=
      mem_firstOccurrences _ _ (List.mem_map_of_mem _ he)
    simp only [get_eventos_por_status]
    rw [if_neg hne]
    exact ⟨_, List.mem_map_of_mem _ hmem, rfl⟩
  · intro row hrow
    simp only [get_eventos_por_status] at hrow
    by_cases h0 : (eventosScope db u di df).length = 0
    · rw [if_pos h0] at hrow
      cases hrow
    · rw [if_neg h0] at hrow
      rcases List.mem_map.mp hrow with ⟨s, hs, rfl⟩
      exact ⟨rfl, rfl, rfl⟩

/-- C7 counterexample: three events in the admin scope of the sample store
(one "Confirmado", two "Orçamento") give the exact percentages 100/3 and
200/3; 100/3 is NOT equal to its value rounded to two decimals (33.33), so
the report does not round. -/
theorem por_status_percent_unrounded_counterexample :
    (get_eventos_por_status dbW uAdm none none).map (fun r => r.percentual) =
      [100/3, 200/3] ∧
    round2Spec (100/3) = 3333/100 ∧
    (100/3 : ℚ) ≠ 3333/100 := by
  have hround : round ((100 : ℚ)/3 * 100) = 3333 := by
    rw [round_eq]
    rw [Int.floor_eq_iff]
    constructor <;> norm_num
  refine ⟨?_, ?_, by norm_num⟩
  · simp [get_eventos_por_status, eventosScope, ownershipScope, dbW, uAdm,
      evW1, evW2, evW3, firstOccurrences, firstOccurrencesGo, sumContratos]
    norm_num
  · rw [round2Spec, hround]
    norm_num

/-- C9 (amended): creating a user whose email an existing user already
holds fails before any insert — the store is unchanged — with the
duplicate-email `HTTPException`, whose status code in the source is 400
(Bad Request), not 409. -/
theorem create_user_duplicate_email (db : Db) (user_in : UserCreate)
    (hdup : (get_user_by_email db user_in.email).isSome = true) :
    create_user_endpoint db user_in =
      .error { status_code := 400,
               detail := "Já existe um usuário com este email no sistema." } ∧
    dbAfterCreateUser db user_in = db := by
  rcases hu : get_user_by_email db user_in.email with _ | u
  · rw [hu] at hdup
    cases hdup
  · have herr : create_user_endpoint db user_in =
        .error { status_code := 400,
                 detail := "Já existe um usuário com este email no sistema." } := by
      simp [create_user_endpoint, hu]
    exact ⟨herr, by simp [dbAfterCreateUser, herr]⟩

/-- C9 witness: on the sample store, re-using `uOp`'s email is rejected
with status 400 and the store is unchanged. -/
theorem create_user_duplicate_email_witness :
    create_user_endpoint dbW uinDup =
      .error { status_code := 400,
               detail := "Já existe um usuário com este email no sistema." } ∧
    dbAfterCreateUser dbW uinDup = dbW :=
  create_user_duplicate_email dbW uinDup (by decide)

/-- C9 counterexample: the duplicate-email failure carries HTTP status 400,
not the 409 the claim requires, and 400 is a different status code. -/
theorem create_user_duplicate_email_counterexample :
    (get_user_by_email dbW uinDup.email).isSome = true ∧
    create_user_endpoint dbW uinDup =
      .error { status_code := 400,
               detail := "Já existe um usuário com este email no sistema." } ∧
    (∀ err, create_user_endpoint dbW uinDup = .error err → err.status_code ≠ 409) ∧
    dbAfterCreateUser dbW uinDup = dbW := by
  refine ⟨by decide, by rfl, ?_, by decide⟩
  intro err herr
  have h : err.status_code = 400 := by
    have hd : create_user_endpoint dbW uinDup =
        .error { status_code := 400,
                 detail := "Já existe um usuário com este email no sistema." } := by
      rfl
    rw [hd] at herr
    injection herr with h2
    rw [← h2]
  rw [h]
  decide

/-- C10: `get_eventos_por_mes` at its default limit (the only way the
routes call it) returns at most 12 month buckets: the grouped rows are
ordered ascending by month bucket and truncated to the first (oldest)
12, so any month beyond the twelfth in range is dropped. -/
theorem por_mes_truncated_to_twelve (db : Db) (u : Usuario) (di df : Option Nat) :
    (get_eventos_por_mes db u di df).length ≤ 12 ∧
    get_eventos_por_mes db u di df = (monthRowsAll db u di df).take 12 ∧
    ((get_eventos_por_mes db u di df).map (fun r => r.mes_ano)).Pairwise
      (fun a b => a ≤ b) := by
  refine ⟨?_, rfl, ?_⟩
  · exact List.length_take_le 12 _
  · have hmap : (get_eventos_por_mes db u di df).map (fun r => r.mes_ano) =
        (sortByLe (fun a b => decide (a ≤ b))
          (firstOccurrences ((eventosScope db u di df).map mesAno))).take 12 := by
      simp only [get_eventos_por_mes, monthRowsAll, List.map_take, List.map_map]
      exact congrArg (List.take 12) (List.map_id' _)
    rw [hmap]
    exact List.Pairwise.sublist (List.take_sublist _ _) (pairwise_sortByLe_nat _)
